import Mathlib

/-!
Verification of the MCQ-generator background-job pipeline
(`src/app/api/process-pdf/route.ts` and
`src/app/components/PDFUploadWithPolling.tsx`).

The TypeScript code is shallowly embedded: the process-wide globals
(`global.processingState`, `global.mcqs`) become an explicit `Globals`
record threaded through the endpoint functions, the JavaScript builtin
`JSON.parse` is modelled by an executable recursive-descent parser
`jsonParse` over dynamically-typed `Json` values, thrown JavaScript
values become the `JSError` type (an `Error` instance carrying a
message, or any non-`Error` value), and the client-side polling
interval callback becomes a step function `pollTick` folded over a
list of per-tick inputs.
-/

namespace McqGenerater

/-- Dynamically-typed JSON values, the result type of the JavaScript
builtin `JSON.parse`.  Numbers keep their source lexeme: no claim
depends on numeric semantics. -/
inductive Json where
  | null
  | bool (b : Bool)
  | num (lit : String)
  | str (s : String)
  | arr (elems : List Json)
  | obj (fields : List (String × Json))

/-- JSON insignificant whitespace (RFC 8259). -/
def isJsonWs (c : Char) : Bool :=
  c = ' ' || c = '\t' || c = '\n' || c = '\r'

/-- Skip insignificant whitespace. -/
def skipWs (cs : List Char) : List Char := cs.dropWhile isJsonWs

/-- Split off a run of decimal digits. -/
def takeDigits (cs : List Char) : List Char × List Char :=
  (cs.takeWhile Char.isDigit, cs.dropWhile Char.isDigit)

/-- Integer part of a JSON number: `0`, or a nonzero digit followed by
digits (leading zeros are not absorbed, as in `JSON.parse`). -/
def parseIntPart : List Char → Option (List Char × List Char)
  | '0' :: rest => some (['0'], rest)
  | c :: rest =>
    if c.isDigit then
      let (ds, rest') := takeDigits rest
      some (c :: ds, rest')
    else none
  | [] => none

/-- Optional fraction part `.[0-9]+` of a JSON number. -/
def parseFrac : List Char → Option (List Char × List Char)
  | '.' :: rest =>
    let (ds, rest') := takeDigits rest
    if ds.isEmpty then none else some ('.' :: ds, rest')
  | cs => some ([], cs)

/-- Optional exponent part `[eE][+-]?[0-9]+` of a JSON number. -/
def parseExp : List Char → Option (List Char × List Char)
  | c :: rest =>
    if c = 'e' || c = 'E' then
      let (sgn, rest1) :=
        match rest with
        | '+' :: r => ((['+'] : List Char), r)
        | '-' :: r => ((['-'] : List Char), r)
        | _ => (([] : List Char), rest)
      let (ds, rest2) := takeDigits rest1
      if ds.isEmpty then none else some (c :: (sgn ++ ds), rest2)
    else some ([], c :: rest)
  | [] => some ([], [])

/-- A complete JSON number; returns its lexeme. -/
def parseNumber (cs : List Char) : Option (String × List Char) := do
  let (sign, cs1) :=
    match cs with
    | '-' :: rest => ((['-'] : List Char), rest)
    | _ => (([] : List Char), cs)
  let (ip, cs2) ← parseIntPart cs1
  let (fp, cs3) ← parseFrac cs2
  let (ep, cs4) ← parseExp cs3
  return (String.mk (sign ++ ip ++ fp ++ ep), cs4)

/-- Value of a hexadecimal digit, by code point: digits are 48–57,
lowercase a–f are 97–102, uppercase A–F are 65–70. -/
def hexVal (c : Char) : Option Nat :=
  let n := c.toNat
  if 48 ≤ n && n ≤ 57 then some (n - 48)
  else if 97 ≤ n && n ≤ 102 then some (n - 87)
  else if 65 ≤ n && n ≤ 70 then some (n - 55)
  else none

/-- Body of a JSON string after the opening quote: returns the decoded
characters and the input after the closing quote. -/
def parseStringBody (fuel : Nat) (cs : List Char) : Option (List Char × List Char) :=
  match fuel with
  | 0 => none
  | fuel + 1 =>
    match cs with
    | [] => none
    | '"' :: rest => some ([], rest)
    | '\\' :: e :: rest =>
      match e with
      | '"' => (parseStringBody fuel rest).map (fun p => ('"' :: p.1, p.2))
      | '\\' => (parseStringBody fuel rest).map (fun p => ('\\' :: p.1, p.2))
      | '/' => (parseStringBody fuel rest).map (fun p => ('/' :: p.1, p.2))
      | 'b' => (parseStringBody fuel rest).map (fun p => ('\x08' :: p.1, p.2))
      | 'f' => (parseStringBody fuel rest).map (fun p => ('\x0c' :: p.1, p.2))
      | 'n' => (parseStringBody fuel rest).map (fun p => ('\n' :: p.1, p.2))
      | 'r' => (parseStringBody fuel rest).map (fun p => ('\r' :: p.1, p.2))
      | 't' => (parseStringBody fuel rest).map (fun p => ('\t' :: p.1, p.2))
      | 'u' =>
        match rest with
        | h1 :: h2 :: h3 :: h4 :: rest' => do
          let a ← hexVal h1
          let b ← hexVal h2
          let c ← hexVal h3
          let d ← hexVal h4
          let p ← parseStringBody fuel rest'
          return (Char.ofNat (((a * 16 + b) * 16 + c) * 16 + d) :: p.1, p.2)
        | _ => none
      | _ => none
    | c :: rest =>
      if c.toNat < 32 then none
      else (parseStringBody fuel rest).map (fun p => (c :: p.1, p.2))

mutual

/-- One JSON value (leading whitespace allowed), recursive descent. -/
def parseValue (fuel : Nat) (cs : List Char) : Option (Json × List Char) :=
  match fuel with
  | 0 => none
  | fuel + 1 =>
    match skipWs cs with
    | 'n' :: 'u' :: 'l' :: 'l' :: rest => some (.null, rest)
    | 't' :: 'r' :: 'u' :: 'e' :: rest => some (.bool true, rest)
    | 'f' :: 'a' :: 'l' :: 's' :: 'e' :: rest => some (.bool false, rest)
    | '"' :: rest =>
      match parseStringBody (rest.length + 1) rest with
      | some (s, r) => some (.str (String.mk s), r)
      | none => none
    | '[' :: rest =>
      match skipWs rest with
      | ']' :: r => some (.arr [], r)
      | _ => parseElems fuel rest
    | '{' :: rest =>
      match skipWs rest with
      | '}' :: r => some (.obj [], r)
      | _ => parseFields fuel rest
    | other =>
      match parseNumber other with
      | some (lit, r) => some (.num lit, r)
      | none => none

/-- Nonempty comma-separated element list of a JSON array, up to and
including the closing bracket. -/
def parseElems (fuel : Nat) (cs : List Char) : Option (Json × List Char) :=
  match fuel with
  | 0 => none
  | fuel + 1 =>
    match parseValue fuel cs with
    | some (v, rest) =>
      match skipWs rest with
      | ',' :: r =>
        match parseElems fuel r with
        | some (.arr vs, r') => some (.arr (v :: vs), r')
        | _ => none
      | ']' :: r => some (.arr [v], r)
      | _ => none
    | none => none

/-- Nonempty comma-separated member list of a JSON object, up to and
including the closing brace. -/
def parseFields (fuel : Nat) (cs : List Char) : Option (Json × List Char) :=
  match fuel with
  | 0 => none
  | fuel + 1 =>
    match skipWs cs with
    | '"' :: rest =>
      match parseStringBody (rest.length + 1) rest with
      | some (k, rest1) =>
        match skipWs rest1 with
        | ':' :: rest2 =>
          match parseValue fuel rest2 with
          | some (v, rest3) =>
            match skipWs rest3 with
            | ',' :: r =>
              match parseFields fuel r with
              | some (.obj fs, r') => some (.obj ((String.mk k, v) :: fs), r')
              | _ => none
            | '}' :: r => some (.obj [(String.mk k, v)], r)
            | _ => none
          | none => none
        | _ => none
      | none => none
    | _ => none

end

/-- Model of the JavaScript builtin `JSON.parse`: parses one value and
requires only whitespace to remain. -/
def jsonParse (cs : List Char) : Option Json :=
  match parseValue (2 * cs.length + 8) cs with
  | some (v, rest) => if (skipWs rest).isEmpty then some v else none
  | none => none

/-- The fence-opening alternative of the cleanup regex. -/
def fenceOpen : List Char := "```json\n".toList

/-- The fence-closing alternative of the cleanup regex. -/
def fenceClose : List Char := "\n```".toList

/-- Worker for `stripFences`; the fuel (one unit per consumed
character) makes the recursion structural. -/
def stripFencesGo : Nat → List Char → List Char
  | 0, cs => cs
  | _ + 1, [] => []
  | fuel + 1, c :: rest =>
    if fenceOpen.isPrefixOf (c :: rest) then stripFencesGo fuel (rest.drop 7)
    else if fenceClose.isPrefixOf (c :: rest) then stripFencesGo fuel (rest.drop 3)
    else c :: stripFencesGo fuel rest

/-- Model of `responseText.replace(/```json\n|\n```/g, "")`: a global
leftmost scan deleting each occurrence of either alternative (first
alternative tried first at each position).  Every step consumes at
least one character, so `cs.length` units of fuel are exact. -/
def stripFences (cs : List Char) : List Char := stripFencesGo cs.length cs

/-- Whitespace stripped by the JavaScript `String.prototype.trim`
(the code points relevant here). -/
def isTrimWs (c : Char) : Bool :=
  c = ' ' || c = '\t' || c = '\n' || c = '\r' || c = '\x0b' || c = '\x0c' || c = '\xa0'

/-- `cleanedText` of `route.ts`:
`responseText.replace(/```json\n|\n```/g, "").trim()`. -/
def cleanedText (responseText : String) : List Char :=
  (((stripFences responseText.toList).dropWhile isTrimWs).reverse.dropWhile isTrimWs).reverse

/-- The four values of `ProcessingState.status` in `route.ts`. -/
inductive Status where
  | idle
  | processing
  | completed
  | failed
deriving DecidableEq

/-- The `ProcessingState` interface of `route.ts`.  The `mcqs` field is
typed `MCQ[]` in TypeScript but receives whatever `JSON.parse`
returned, so it is a raw `Json` value here. -/
structure ProcessingState where
  status : Status
  mcqs : Json
  error : Option String
  startTime : Option Nat
  progress : Option String

/-- The process-wide globals of `route.ts`: `global.processingState`
and the legacy result store `global.mcqs` (initially undefined). -/
structure Globals where
  processingState : ProcessingState
  mcqs : Option Json

/-- The initial registry state installed at module load:
`{ status: "idle", mcqs: [] }`. -/
def initialProcessingState : ProcessingState :=
  { status := .idle, mcqs := .arr [], error := none, startTime := none, progress := none }

/-- A thrown JavaScript value: an `Error` instance carrying a message,
or any non-`Error` value. -/
inductive JSError where
  | error (message : String)
  | nonError
deriving DecidableEq

/-- `error instanceof Error ? error.message : "Unknown error during
processing"` — the message derivation of the background catch block. -/
def jsErrorMessage : JSError → String
  | .error m => m
  | .nonError => "Unknown error during processing"

/-- One HTTP submission request as extracted from the form data:
`formData.get("pdf")` and `formData.get("apiKey")` are `null` when the
field is absent, and `withPolling` is `formData.get("withPolling") ===
"true"`. -/
structure SubmitRequest where
  file : Option String
  apiKey : Option String
  withPolling : Bool

/-- A `NextResponse.json` value: the HTTP status plus the JSON body
fields that occur in `route.ts` (`error`, `status`, `message`,
`success`), each `none` when absent from the body. -/
structure ApiResponse where
  httpStatus : Nat
  error : Option String
  status : Option String
  message : Option String
  success : Option Bool
deriving DecidableEq

/-- JavaScript falsiness of `formData.get("apiKey") as string`:
`null` or the empty string. -/
def apiKeyMissing : Option String → Bool
  | none => true
  | some s => s == ""

/-- `!Array.isArray(mcqs) || mcqs.length === 0` negated: the value is
an array with at least one element. -/
def isNonEmptyArray : Json → Bool
  | .arr (_ :: _) => true
  | _ => false

/-- The outcome of the external generation call (`generateContent`
followed by `response.text()`), together with every other awaited step
of the same `try` block: either the raw response text, or the thrown
value. -/
def AdapterOutcome := Except JSError String

/-- The result of one `POST` invocation: the HTTP response, the
globals after the synchronous part of the handler, and whether
`processPdfInBackground` was launched (fire-and-forget, so its effect
is applied separately by `processPdfInBackground`). -/
structure PostResult where
  response : ApiResponse
  globals : Globals
  launched : Bool

/-- The busy response of the exclusivity check:
`{ status: "processing", message: "Another PDF is currently being
processed" }` with the default HTTP status 200. -/
def busyResponse : ApiResponse :=
  { httpStatus := 200, error := none, status := some "processing",
    message := some "Another PDF is currently being processed", success := none }

/-- The acceptance response: `{ status: "processing", message: "PDF
processing started" }` with the default HTTP status 200. -/
def acceptedResponse : ApiResponse :=
  { httpStatus := 200, error := none, status := some "processing",
    message := some "PDF processing started", success := none }

/-- The registry state written on accepting an asynchronous
submission (`route.ts` lines 63–68). -/
def acceptedState (now : Nat) : ProcessingState :=
  { status := .processing, mcqs := .arr [], error := none,
    startTime := some now, progress := some "Starting PDF processing..." }

/-- The `POST` handler of `route.ts`.  `now` is `Date.now()` at the
acceptance write; `adapter` is the outcome of the synchronous path's
external generation call (unused on the polling path, whose own
adapter call happens inside `processPdfInBackground`). -/
def POST (req : SubmitRequest) (now : Nat) (adapter : AdapterOutcome)
    (g : Globals) : PostResult :=
  match req.file with
  | none =>
    { response := { httpStatus := 400, error := some "No file uploaded",
                    status := none, message := none, success := none },
      globals := g, launched := false }
  | some _ =>
    if apiKeyMissing req.apiKey then
      { response := { httpStatus := 400, error := some "API key is required",
                      status := none, message := none, success := none },
        globals := g, launched := false }
    else if req.withPolling then
      if g.processingState.status = .processing then
        { response := busyResponse, globals := g, launched := false }
      else
        { response := acceptedResponse,
          globals := { processingState := acceptedState now, mcqs := g.mcqs },
          launched := true }
    else
      match adapter with
      | .error _ =>
        { response := { httpStatus := 500, error := some "Failed to process PDF",
                        status := none, message := none, success := none },
          globals := g, launched := false }
      | .ok responseText =>
        match jsonParse (cleanedText responseText) with
        | none =>
          { response := { httpStatus := 500,
                          error := some "Failed to generate valid MCQs from the PDF",
                          status := none, message := none, success := none },
            globals := g, launched := false }
        | some mcqs =>
          if isNonEmptyArray mcqs then
            { response := { httpStatus := 200, error := none, status := none,
                            message := none, success := some true },
              globals := { processingState := g.processingState, mcqs := some mcqs },
              launched := false }
          else
            { response := { httpStatus := 500,
                            error := some "Generated MCQs are not in the correct format",
                            status := none, message := none, success := none },
              globals := g, launched := false }

/-- The background Job Runner `processPdfInBackground` of `route.ts`,
as a function from the adapter outcome and the globals at launch to
the globals at termination.  The in-flight `progress` mutations
("Converting PDF...", "Sending to AI model...", "Processing AI
response...") happen between launch and termination and are
overwritten wholesale by the terminal assignment, so only the terminal
state is modelled.  The outer `catch` converts any thrown value into a
`failed` state, so the function is total: no exception escapes the
runner. -/
def processPdfInBackground (adapter : AdapterOutcome) (g : Globals) : Globals :=
  match adapter with
  | .error e =>
    { processingState :=
        { status := .failed, mcqs := .arr [],
          error := some (jsErrorMessage e), startTime := none, progress := none },
      mcqs := g.mcqs }
  | .ok responseText =>
    match jsonParse (cleanedText responseText) with
    | some mcqs =>
      { processingState :=
          { status := .completed, mcqs := mcqs,
            error := none, startTime := none, progress := none },
        mcqs := some mcqs }
    | none =>
      { processingState :=
          { status := .failed, mcqs := .arr [],
            error := some "Failed to parse AI response into valid MCQs",
            startTime := none, progress := none },
        mcqs := g.mcqs }

/-- JavaScript truthiness of an optional string field of the status
body: absent and the empty string are falsy. -/
def jsTruthyStr : Option String → Bool
  | none => false
  | some s => !(s == "")

/-- JavaScript `a || b` for an optional string `a`: falls back when
the field is absent or the empty string. -/
def jsOrStr (a : Option String) (b : String) : String :=
  match a with
  | none => b
  | some s => if s == "" then b else s

/-- The client-side state touched by the polling callback of
`PDFUploadWithPolling.tsx`: the `elapsedTime`, `progress`, `error` and
`processing` React states, plus whether the poll interval is still
installed (`clearInterval` not yet called). -/
structure PollerState where
  elapsed : Nat
  progress : String
  error : Option String
  processing : Bool
  intervalActive : Bool
deriving DecidableEq

/-- What one execution of the interval callback observes: either the
parsed body of a successful status query (its `status`, `progress` and
`error` fields), or a failure (`fetch` rejected, the response was not
`ok`, or the body failed to parse), which lands in the `catch`. -/
inductive PollInput where
  | response (status : Status) (progressField : Option String) (errorField : Option String)
  | fail
deriving DecidableEq

/-- One execution of the `setInterval` callback installed by
`startPolling`.  `captured` is the value of the `elapsedTime` binding
the callback closed over — the React state of the render in which
`startPolling` ran, frozen for the whole run (0 in a first run); the
guards at lines 44, 63, 70 and 81 of the component read this captured
binding, while `setElapsedTime(prev => prev + 2)` updates the live
state functionally.  The callback has no early return, so every guard
is evaluated in order. -/
def pollTick (captured : Nat) (st : PollerState) (i : PollInput) : PollerState :=
  if !st.intervalActive then st
  else
    match i with
    | .fail =>
      if captured > 10 then
        { st with
          error := some "Error checking processing status. Please refresh the page.",
          intervalActive := false, processing := false }
      else st
    | .response status prog err =>
      let s1 := { st with elapsed := st.elapsed + 2 }
      let s2 :=
        if jsTruthyStr prog then { s1 with progress := jsOrStr prog "" }
        else if captured % 10 = 0 then
          { s1 with progress :=
              "Still processing... (" ++ toString captured ++ " seconds elapsed)" }
        else s1
      let s3 :=
        if status = .completed then
          { s2 with intervalActive := false, processing := false,
                    progress := "MCQs generated successfully!" }
        else if status = .failed then
          { s2 with intervalActive := false, processing := false,
                    error := some (jsOrStr err "Processing failed for unknown reasons") }
        else s2
      let s4 :=
        if captured > 180 && status = .processing then
          { s3 with progress :=
              "Still processing... (" ++ toString captured
                ++ " seconds elapsed). This is taking longer than expected." }
        else s3
      if captured > 300 && status = .processing then
        { s4 with intervalActive := false, processing := false,
                  error := some "Processing timed out. Please try again with a smaller PDF." }
      else s4

/-- The client state right after an accepted submission starts
polling: `setProcessing(true)`, `setError(null)`, `setProgress("PDF
uploaded. Processing started...")`, `setElapsedTime(0)`, interval
installed. -/
def pollerInit : PollerState :=
  { elapsed := 0, progress := "PDF uploaded. Processing started...",
    error := none, processing := true, intervalActive := true }

/-- A polling run: the interval callback executed once per tick over
the given per-tick inputs. -/
def runPoller (captured : Nat) (inputs : List PollInput) (st : PollerState) : PollerState :=
  inputs.foldl (pollTick captured) st

/-- Characterization of the synchronous path's successful outcome: the
parsed value stored into the legacy store `global.mcqs`, or `none` on
any failure (adapter throw, parse failure, non-array or empty
result). -/
def syncOutcome (adapter : AdapterOutcome) : Option Json :=
  match adapter with
  | .error _ => none
  | .ok responseText =>
    match jsonParse (cleanedText responseText) with
    | some v => if isNonEmptyArray v then some v else none
    | none => none

/-- Characterization of the synchronous path's HTTP response, as a
function of the adapter outcome alone. -/
def syncResponse (adapter : AdapterOutcome) : ApiResponse :=
  match adapter with
  | .error _ =>
    { httpStatus := 500, error := some "Failed to process PDF",
      status := none, message := none, success := none }
  | .ok responseText =>
    match jsonParse (cleanedText responseText) with
    | none =>
      { httpStatus := 500, error := some "Failed to generate valid MCQs from the PDF",
        status := none, message := none, success := none }
    | some v =>
      if isNonEmptyArray v then
        { httpStatus := 200, error := none, status := none,
          message := none, success := some true }
      else
        { httpStatus := 500, error := some "Generated MCQs are not in the correct format",
          status := none, message := none, success := none }

/-- The fault cases of the Job Runner and the message each one
produces: a thrown adapter error yields its derived message (or the
generic fallback for a non-`Error` value), an unparseable response
yields the fixed parse-failure message, and a parseable response is
not a fault. -/
def runnerFaultMessage : AdapterOutcome → Option String
  | .error e => some (jsErrorMessage e)
  | .ok responseText =>
    match jsonParse (cleanedText responseText) with
    | some _ => none
    | none => some "Failed to parse AI response into valid MCQs"

/-- Concrete globals with an in-flight job, used to exercise the
exclusivity check. -/
def gBusy : Globals :=
  { processingState :=
      { status := .processing, mcqs := .arr [], error := none,
        startTime := some 5, progress := some "Sending to AI model..." },
    mcqs := none }

/-- Concrete globals in the initial idle state. -/
def gIdle : Globals :=
  { processingState := initialProcessingState, mcqs := none }

/-- Concrete globals right after an accepted submission. -/
def gAccepted : Globals :=
  { processingState := acceptedState 0, mcqs := none }

/-! ### Helper lemmas -/

/-- Unfolding a polling run one tick at a time. -/
theorem runPoller_cons (c : Nat) (i : PollInput) (l : List PollInput) (st : PollerState) :
    runPoller c (i :: l) st = runPoller c l (pollTick c st i) := rfl

/-- With the closure-captured elapsed time at 0, a failed status query
leaves the client state untouched: the `catch` guard compares the
captured value against 10. -/
theorem pollTick_fail_zero (st : PollerState) : pollTick 0 st .fail = st := by
  by_cases h : st.intervalActive <;> simp [pollTick, h]

/-- Any number of consecutive failed status queries leaves the client
state untouched when the captured elapsed time is 0. -/
theorem runPoller_fail_zero (n : Nat) (st : PollerState) :
    runPoller 0 (List.replicate n .fail) st = st := by
  induction n generalizing st with
  | zero => rfl
  | succ n ih => rw [List.replicate_succ, runPoller_cons, pollTick_fail_zero]; exact ih st

/-- With the captured elapsed time at 0, a `processing` status
response leaves the interval installed and the error/processing flags
unchanged, advancing only the live elapsed counter. -/
theorem pollTick_processing_zero (st : PollerState) (h : st.intervalActive = true) :
    (pollTick 0 st (.response .processing none none)).intervalActive = true ∧
    (pollTick 0 st (.response .processing none none)).error = st.error ∧
    (pollTick 0 st (.response .processing none none)).processing = st.processing ∧
    (pollTick 0 st (.response .processing none none)).elapsed = st.elapsed + 2 := by
  simp [pollTick, h, jsTruthyStr]

/-- Iterated version of `pollTick_processing_zero`. -/
theorem runPoller_processing_zero (n : Nat) (st : PollerState) (h : st.intervalActive = true) :
    (runPoller 0 (List.replicate n (.response .processing none none)) st).intervalActive = true ∧
    (runPoller 0 (List.replicate n (.response .processing none none)) st).error = st.error ∧
    (runPoller 0 (List.replicate n (.response .processing none none)) st).processing = st.processing ∧
    (runPoller 0 (List.replicate n (.response .processing none none)) st).elapsed
      = st.elapsed + 2 * n := by
  induction n generalizing st with
  | zero => simpa using ⟨h, rfl, rfl, rfl⟩
  | succ n ih =>
    rw [List.replicate_succ, runPoller_cons]
    obtain ⟨h1, h2, h3, h4⟩ := pollTick_processing_zero st h
    obtain ⟨g1, g2, g3, g4⟩ := ih _ h1
    refine ⟨g1, ?_, ?_, ?_⟩
    · rw [g2, h2]
    · rw [g3, h3]
    · rw [g4, h4]; ring

/-! ### Claim theorems -/

/-- Claim C1, counterexample.  The registry is `processing`, yet a
synchronous-mode submission with valid inputs is executed and answered
with `success: true` (the job is accepted, not rejected), and an
asynchronous submission missing the credential is answered with the
400 `InvalidInput` response: neither gets the busy response, so not
every submission arriving while `Processing` returns a busy
response. -/
theorem c1_counterexample :
    gBusy.processingState.status = .processing ∧
    (POST ⟨some "doc", some "key", false⟩ 7 (.ok "[1]") gBusy).response =
      { httpStatus := 200, error := none, status := none, message := none,
        success := some true } ∧
    (POST ⟨some "doc", none, true⟩ 7 (.ok "[1]") gBusy).response =
      { httpStatus := 400, error := some "API key is required", status := none,
        message := none, success := none } :=
  ⟨rfl, rfl, rfl⟩

/-- Claim C1, amended: for every asynchronous-mode submission with
document and credential present arriving while the registry's tag is
`processing`, the handler leaves the globals unchanged, launches no
job, and returns the busy response. -/
theorem async_busy_rejected (file key : String) (hk : key ≠ "") (now : Nat)
    (adapter : AdapterOutcome) (g : Globals)
    (h : g.processingState.status = .processing) :
    POST ⟨some file, some key, true⟩ now adapter g =
      { response := busyResponse, globals := g, launched := false } := by
  simp [POST, apiKeyMissing, hk, h]

/-- Witness for `async_busy_rejected` at a concrete busy state. -/
theorem async_busy_rejected_witness :
    POST ⟨some "doc", some "key", true⟩ 3 (.ok "raw") gBusy =
      { response := busyResponse, globals := gBusy, launched := false } :=
  async_busy_rejected "doc" "key" (by decide) 3 (.ok "raw") gBusy rfl

/-- Claim C4: every valid asynchronous submission arriving while the
registry is `idle`, `completed` or `failed` overwrites the registry to
`processing` with empty result, no error and the given start time,
launches the background runner, and returns the acceptance
response. -/
theorem async_accept_transitions (file key : String) (hk : key ≠ "") (now : Nat)
    (adapter : AdapterOutcome) (g : Globals)
    (h : g.processingState.status = .idle ∨ g.processingState.status = .completed ∨
         g.processingState.status = .failed) :
    (POST ⟨some file, some key, true⟩ now adapter g).globals.processingState.status
        = .processing ∧
    (POST ⟨some file, some key, true⟩ now adapter g).globals.processingState.mcqs = .arr [] ∧
    (POST ⟨some file, some key, true⟩ now adapter g).globals.processingState.error = none ∧
    (POST ⟨some file, some key, true⟩ now adapter g).globals.processingState.startTime
        = some now ∧
    (POST ⟨some file, some key, true⟩ now adapter g).response = acceptedResponse ∧
    (POST ⟨some file, some key, true⟩ now adapter g).launched = true := by
  have hne : ¬ g.processingState.status = .processing := by
    rcases h with h | h | h <;> simp [h]
  simp [POST, apiKeyMissing, hk, hne, acceptedState]

/-- Witness for `async_accept_transitions` at the idle state. -/
theorem async_accept_transitions_witness :
    (POST ⟨some "doc", some "key", true⟩ 42 (.ok "raw") gIdle).globals.processingState.status
        = .processing ∧
    (POST ⟨some "doc", some "key", true⟩ 42 (.ok "raw") gIdle).globals.processingState.mcqs
        = .arr [] ∧
    (POST ⟨some "doc", some "key", true⟩ 42 (.ok "raw") gIdle).globals.processingState.error
        = none ∧
    (POST ⟨some "doc", some "key", true⟩ 42 (.ok "raw") gIdle).globals.processingState.startTime
        = some 42 ∧
    (POST ⟨some "doc", some "key", true⟩ 42 (.ok "raw") gIdle).response = acceptedResponse ∧
    (POST ⟨some "doc", some "key", true⟩ 42 (.ok "raw") gIdle).launched = true :=
  async_accept_transitions "doc" "key" (by decide) 42 (.ok "raw") gIdle (Or.inl rfl)

/-- Claim C7, counterexample: the state written on accepting a
submission carries the progress label "Starting PDF processing...",
so the resulting state does not have "no progress label
initially". -/
theorem c7_counterexample :
    (POST ⟨some "doc", some "key", true⟩ 42 (.ok "raw") gIdle).globals.processingState.progress
        = some "Starting PDF processing..." ∧
    (POST ⟨some "doc", some "key", true⟩ 42 (.ok "raw") gIdle).globals.processingState.progress
        ≠ none :=
  ⟨rfl, by decide⟩

/-- Claim C7, amended: the registry transition taken on accepting a
submission yields `processing` with empty result, no error, the given
start time, and the initial progress label "Starting PDF
processing...". -/
theorem accepted_state_has_progress_label (file key : String) (hk : key ≠ "") (now : Nat)
    (adapter : AdapterOutcome) (g : Globals)
    (h : g.processingState.status ≠ .processing) :
    (POST ⟨some file, some key, true⟩ now adapter g).globals.processingState =
      { status := .processing, mcqs := .arr [], error := none,
        startTime := some now, progress := some "Starting PDF processing..." } := by
  simp [POST, apiKeyMissing, hk, h, acceptedState]

/-- Witness for `accepted_state_has_progress_label` at the idle
state. -/
theorem accepted_state_has_progress_label_witness :
    (POST ⟨some "doc", some "key", true⟩ 42 (.ok "raw") gIdle).globals.processingState =
      { status := .processing, mcqs := .arr [], error := none,
        startTime := some 42, progress := some "Starting PDF processing..." } :=
  accepted_state_has_progress_label "doc" "key" (by decide) 42 (.ok "raw") gIdle (by decide)

/-- Claim C8: every asynchronous-mode submission with valid inputs —
whether accepted or rejected as busy — is answered with the body
status tag "processing" and HTTP status 200, so the two outcomes are
indistinguishable by status tag and status code alone. -/
theorem async_accept_and_busy_same_tag (file key : String) (hk : key ≠ "") (now : Nat)
    (adapter : AdapterOutcome) (g : Globals) :
    (POST ⟨some file, some key, true⟩ now adapter g).response.status = some "processing" ∧
    (POST ⟨some file, some key, true⟩ now adapter g).response.httpStatus = 200 := by
  by_cases hp : g.processingState.status = .processing <;>
    simp [POST, apiKeyMissing, hk, hp, busyResponse, acceptedResponse]

/-- Witness for `async_accept_and_busy_same_tag` at a busy state. -/
theorem async_accept_and_busy_same_tag_witness :
    (POST ⟨some "doc", some "key", true⟩ 3 (.ok "raw") gBusy).response.status
        = some "processing" ∧
    (POST ⟨some "doc", some "key", true⟩ 3 (.ok "raw") gBusy).response.httpStatus = 200 :=
  async_accept_and_busy_same_tag "doc" "key" (by decide) 3 (.ok "raw") gBusy

/-- Claim C9: a synchronous-mode submission (polling flag absent)
never reads or writes the job registry — the response and the new
globals are determined by the adapter outcome alone, the
`processingState` keeps all its prior values (even while a job is
`processing`, so the exclusivity check is skipped), and only the
legacy store `global.mcqs` is overwritten, exactly on success. -/
theorem sync_mode_skips_registry (file key : String) (hk : key ≠ "") (now : Nat)
    (adapter : AdapterOutcome) (g : Globals) :
    POST ⟨some file, some key, false⟩ now adapter g =
      { response := syncResponse adapter,
        globals := { processingState := g.processingState,
                     mcqs := (syncOutcome adapter).elim g.mcqs some },
        launched := false } := by
  cases adapter with
  | error e => simp [POST, apiKeyMissing, hk, syncResponse, syncOutcome]
  | ok t =>
    cases hj : jsonParse (cleanedText t) with
    | none => simp [POST, apiKeyMissing, hk, syncResponse, syncOutcome, hj]
    | some v =>
      by_cases ha : isNonEmptyArray v <;>
        simp [POST, apiKeyMissing, hk, syncResponse, syncOutcome, hj, ha]

/-- Witness for `sync_mode_skips_registry`: a synchronous submission
executed while the registry is busy. -/
theorem sync_mode_skips_registry_witness :
    POST ⟨some "doc", some "key", false⟩ 7 (.ok "[1]") gBusy =
      { response := syncResponse (.ok "[1]"),
        globals := { processingState := gBusy.processingState,
                     mcqs := (syncOutcome (.ok "[1]")).elim gBusy.mcqs some },
        launched := false } :=
  sync_mode_skips_registry "doc" "key" (by decide) 7 (.ok "[1]") gBusy

/-- Claim C10: a submission missing the document or the credential is
answered with the 400 `InvalidInput` error before the exclusivity
check — for every registry state, including `processing`, the body is
an error body (no "processing" status tag), the globals are unchanged
and no job is launched. -/
theorem invalid_input_before_exclusivity (req : SubmitRequest) (now : Nat)
    (adapter : AdapterOutcome) (g : Globals)
    (h : req.file = none ∨ req.apiKey = none) :
    (POST req now adapter g).response.httpStatus = 400 ∧
    (POST req now adapter g).response.error.isSome = true ∧
    (POST req now adapter g).response.status = none ∧
    (POST req now adapter g).globals = g ∧
    (POST req now adapter g).launched = false := by
  rcases h with h | h
  · simp [POST, h]
  · cases hf : req.file with
    | none => simp [POST, hf]
    | some d => simp [POST, hf, h, apiKeyMissing]

/-- Witness for `invalid_input_before_exclusivity`: a credential-less
asynchronous submission while the registry is busy. -/
theorem invalid_input_before_exclusivity_witness :
    (POST ⟨some "doc", none, true⟩ 7 (.ok "raw") gBusy).response.httpStatus = 400 ∧
    (POST ⟨some "doc", none, true⟩ 7 (.ok "raw") gBusy).response.error.isSome = true ∧
    (POST ⟨some "doc", none, true⟩ 7 (.ok "raw") gBusy).response.status = none ∧
    (POST ⟨some "doc", none, true⟩ 7 (.ok "raw") gBusy).globals = gBusy ∧
    (POST ⟨some "doc", none, true⟩ 7 (.ok "raw") gBusy).launched = false :=
  invalid_input_before_exclusivity ⟨some "doc", none, true⟩ 7 (.ok "raw") gBusy (Or.inr rfl)

/-- Claim C2, counterexample: the adapter output "[]" parses to an
empty sequence, yet the background job's terminal state is
`completed` with no error — the background path validates nothing
beyond `JSON.parse` succeeding. -/
theorem c2_counterexample :
    jsonParse (cleanedText "[]") = some (.arr []) ∧
    (processPdfInBackground (.ok "[]") gAccepted).processingState.status = .completed ∧
    (processPdfInBackground (.ok "[]") gAccepted).processingState.error = none :=
  ⟨rfl, rfl, rfl⟩

/-- Claim C2, amended: the background parse step fails — with terminal
state `failed` and the fixed parse-failure message — exactly when the
cleaned adapter text is not valid JSON; every successfully parsed
value, including a non-sequence, an empty sequence, or elements
missing required fields, yields terminal state `completed` with that
value stored as the result. -/
theorem background_terminal_state_by_parse (responseText : String) (g : Globals) :
    (processPdfInBackground (.ok responseText) g).processingState =
      match jsonParse (cleanedText responseText) with
      | some v =>
        { status := .completed, mcqs := v, error := none,
          startTime := none, progress := none }
      | none =>
        { status := .failed, mcqs := .arr [],
          error := some "Failed to parse AI response into valid MCQs",
          startTime := none, progress := none } := by
  cases hj : jsonParse (cleanedText responseText) <;> simp [processPdfInBackground, hj]

/-- Claim C3: every fault in the Job Runner — a thrown upstream or
unexpected error, or a parse failure — is caught inside the runner
(`processPdfInBackground` is a total function), and the registry ends
`failed` carrying the message `runnerFaultMessage` assigns that fault:
the thrown `Error`'s own message, the generic fallback "Unknown error
during processing" for a thrown non-`Error` value, or the fixed
parse-failure message. -/
theorem runner_converts_all_faults (adapter : AdapterOutcome) (g : Globals) (m : String)
    (h : runnerFaultMessage adapter = some m) :
    (processPdfInBackground adapter g).processingState.status = .failed ∧
    (processPdfInBackground adapter g).processingState.error = some m := by
  cases adapter with
  | error e =>
    simp [runnerFaultMessage] at h
    simp [processPdfInBackground, h]
  | ok t =>
    cases hj : jsonParse (cleanedText t) with
    | none =>
      simp [runnerFaultMessage, hj] at h
      simp [processPdfInBackground, hj, h]
    | some v => simp [runnerFaultMessage, hj] at h

/-- Witness for `runner_converts_all_faults`: a thrown `Error` with
message "boom" ends the job `failed` with that derived message. -/
theorem runner_converts_all_faults_witness :
    (processPdfInBackground (.error (.error "boom")) gAccepted).processingState.status
        = .failed ∧
    (processPdfInBackground (.error (.error "boom")) gAccepted).processingState.error
        = some "boom" :=
  runner_converts_all_faults (.error (.error "boom")) gAccepted "boom" rfl

/-- Claim C5, code-behavior theorem: in a first run (captured elapsed
time 0), after any number `n` of status responses still reporting
`processing` — hence 2·n simulated time units, arbitrarily far past
the 300-unit ceiling — the poll interval is still installed and no
timeout error has been surfaced: the poller never stops on the
elapsed-time-ceiling path. -/
theorem poller_never_times_out (n : Nat) :
    (runPoller 0 (List.replicate n (.response .processing none none)) pollerInit).intervalActive
        = true ∧
    (runPoller 0 (List.replicate n (.response .processing none none)) pollerInit).error
        = none ∧
    (runPoller 0 (List.replicate n (.response .processing none none)) pollerInit).elapsed
        = 2 * n := by
  obtain ⟨h1, h2, _, h4⟩ := runPoller_processing_zero n pollerInit rfl
  exact ⟨h1, h2, by rw [h4]; simp [pollerInit]⟩

/-- Claim C6, code-behavior theorem: in a first run (captured elapsed
time 0), any number of consecutive failed status queries leaves the
client state exactly as it started — no counter advances, no
connectivity error is surfaced, and the poller never stops
polling. -/
theorem poller_never_escalates_transport_errors (n : Nat) :
    runPoller 0 (List.replicate n .fail) pollerInit = pollerInit :=
  runPoller_fail_zero n pollerInit

end McqGenerater
